import Mathlib

/-!
Verification of the audiogram plotter (src/audiogram_plotter.py).

The file shallowly embeds the data-processing core of the program:
the RETSPL table and SPL-to-HL conversion, the calibration lookup with
Python list-indexing semantics, the per-slot loops of `plot_elbicare`
and `plot_pychoacoustics` (modelled as `Except`-valued folds so that
Python `KeyError` / `IndexError` become explicit error results), the
two inline PTA computations, and the block-level structure of
`parse_pychoacoustics_txt`.  dB values (Python floats) are modelled as
exact rationals.
-/

set_option maxHeartbeats 1000000
set_option maxRecDepth 8192

namespace AudiogramPlotter

/-- RETSPL values from IEC 60318, source lines 23-31.  A lookup at a
non-canonical frequency is a Python `KeyError`, modelled as `none`. -/
def RETSPL (f : Nat) : Option Rat :=
  if f = 125 then some 45.0
  else if f = 250 then some 27.0
  else if f = 500 then some 13.5
  else if f = 1000 then some 7.5
  else if f = 2000 then some 9.0
  else if f = 4000 then some 12.0
  else if f = 8000 then some 15.5
  else none

/-- The canonical 7-point audiometric grid. -/
def canonicalFreqs : List Nat := [125, 250, 500, 1000, 2000, 4000, 8000]

/-- The SPL-to-HL conversion, source line 334: `dbspl - self.RETSPL[freq_hz]`. -/
def splToHL (dbSPL : Rat) (freqHz : Nat) : Option Rat :=
  (RETSPL freqHz).map (fun r => dbSPL - r)

/-- Python semantics of `xs[i]` on a list for an `int` index: a negative
index counts from the end; an index out of range after that adjustment
raises `IndexError`. -/
def pyIndex (xs : List Rat) (i : Int) : Except String Rat :=
  let j : Int := if i < 0 then (xs.length : Int) + i else i
  if 0 ≤ j ∧ j < (xs.length : Int) then Except.ok (xs.getD j.toNat 0)
  else Except.error "IndexError: list index out of range"

/-- The amplitude-code-to-dBA conversion, source lines 242 and 247:
`calib_data[calib_key][ampl] if ampl < len(calib_data[calib_key]) else 0`.
A missing band key is a Python `KeyError`. -/
def amplitudeToDBA (code : Int) (band : String)
    (calibTable : String → Option (List Rat)) : Except String Rat :=
  match calibTable band with
  | none => Except.error "KeyError: calibration band"
  | some xs =>
      if code < (xs.length : Int) then pyIndex xs code else Except.ok 0

/-- The slot-to-frequency dictionary `elbi_freq_map`, source lines 220-227:
slot index to (native kHz label, calibration band key, plotted frequency). -/
def elbi_freq_map : Nat → Option (Rat × String × Nat)
  | 0 => some (0.625, "250Hz", 250)
  | 1 => some (1.250, "500Hz", 500)
  | 2 => some (2.500, "1000Hz", 1000)
  | 3 => some (5.000, "2000Hz", 2000)
  | 4 => some (10.000, "4000Hz", 4000)
  | 5 => some (20.000, "8000Hz", 8000)
  | _ => none

/-- The plotted frequencies of the six elbicare slots, in slot order. -/
def elbiFreqList : List Nat := [250, 500, 1000, 2000, 4000, 8000]

/-- The plotted frequency of elbicare slot `idx`. -/
def elbiFreqAt (idx : Nat) : Nat := elbiFreqList.getD idx 0

/-- The calibration document as parsed by `load_json` (source lines 154-158):
metadata fields and the per-band arrays, each possibly absent. -/
structure CalibData where
  audio_unit : Option String
  headphone : Option String
  author : Option String
  tanggal : Option String
  bands : String → Option (List Rat)

/-- An elbicare input document: for each channel, the map from slot index
(the `freq_N` keys) to the integer `ampl` value, `none` when the slot key
is absent. -/
structure ElbiData where
  ch0 : Nat → Option Int
  ch1 : Nat → Option Int

/-- One iteration of the slot loop of `plot_elbicare`, source lines 233-248.
`Except.ok none` means the slot was skipped (key absent from `ch_0`);
errors model the `KeyError` / `IndexError` exceptions the body can raise.
The result triple is (plotted frequency, left dBA, right dBA). -/
def elbiStep (elbi : ElbiData) (calib : CalibData) (idx : Nat) :
    Except String (Option (Nat × Rat × Rat)) :=
  match elbi.ch0 idx with
  | none => Except.ok none
  | some amplL =>
    match elbi_freq_map idx with
    | none => Except.error "KeyError: elbi_freq_map"
    | some t =>
      match amplitudeToDBA amplL t.2.1 calib.bands with
      | Except.error e => Except.error e
      | Except.ok dbL =>
        match elbi.ch1 idx with
        | none => Except.error "KeyError: ch_1"
        | some amplR =>
          match amplitudeToDBA amplR t.2.1 calib.bands with
          | Except.error e => Except.error e
          | Except.ok dbR => Except.ok (some (t.2.2, dbL, dbR))

/-- Runs a per-slot body over a list of slot indices, collecting the
produced entries in order; an exception in the body aborts the loop. -/
def collectSlots {α : Type} (f : Nat → Except String (Option α)) :
    List Nat → Except String (List α)
  | [] => Except.ok []
  | i :: is =>
    match f i with
    | Except.error e => Except.error e
    | Except.ok none => collectSlots f is
    | Except.ok (some a) => (collectSlots f is).map (fun l => a :: l)

/-- The data built by the slot loop of `plot_elbicare`
(`freq_list`, `dbL`, `dbR` zipped), source lines 229-248. -/
def elbiSeries (elbi : ElbiData) (calib : CalibData) :
    Except String (List (Nat × Rat × Rat)) :=
  collectSlots (elbiStep elbi calib) [0, 1, 2, 3, 4, 5]

/-- Frequency column of a computed series. -/
def freqsOf (out : List (Nat × Rat × Rat)) : List Nat := out.map (fun t => t.1)

/-- Left-ear dB column of a computed series. -/
def dbLeft (out : List (Nat × Rat × Rat)) : List Rat := out.map (fun t => t.2.1)

/-- Right-ear dB column of a computed series. -/
def dbRight (out : List (Nat × Rat × Rat)) : List Rat := out.map (fun t => t.2.2)

/-- Left-ear (frequency, dB) pairs of a computed series. -/
def leftSeries (out : List (Nat × Rat × Rat)) : List (Nat × Rat) :=
  out.map (fun t => (t.1, t.2.1))

/-- The PTA computation of `plot_elbicare`, source lines 250-256, on one
ear's value list: with at least 5 values, average positions 1-4;
otherwise average everything, or return 0 for the empty list. -/
def computePTA_elbi (db : List Rat) : Rat :=
  if 5 ≤ db.length then
    (db.getD 1 0 + db.getD 2 0 + db.getD 3 0 + db.getD 4 0) / 4
  else if db.length = 0 then 0
  else db.sum / (db.length : Rat)

/-- The PTA computation of `plot_pychoacoustics`, source lines 350-356, on
one ear's value list: with at least 6 values, average positions 2-5;
otherwise average everything, or return 0 for the empty list. -/
def computePTA_pyco (db : List Rat) : Rat :=
  if 6 ≤ db.length then
    (db.getD 2 0 + db.getD 3 0 + db.getD 4 0 + db.getD 5 0) / 4
  else if db.length = 0 then 0
  else db.sum / (db.length : Rat)

/-- Modelled from the spec (§8, §4.6): the arithmetic mean of the series
values at exactly 500, 1000, 2000 and 4000 Hz.  This is the spec-side
definition the code's positional PTA is compared against. -/
def specPTA_fourFreqMean (series : List (Nat × Rat)) : Rat :=
  (valueAt series 500 + valueAt series 1000 +
   valueAt series 2000 + valueAt series 4000) / 4
where
  valueAt (series : List (Nat × Rat)) (f : Nat) : Rat :=
    match series.find? (fun p => p.1 == f) with
    | none => 0
    | some p => p.2

/-- A pychoacoustics audiogram document: per channel, the map from slot
index to the stored (`freq_hz`, `dbSPL`) record, `none` when absent. -/
structure PycoData where
  ch0 : Nat → Option (Nat × Rat)
  ch1 : Nat → Option (Nat × Rat)

/-- The fixed `freq_list` of `plot_pychoacoustics`, source line 323. -/
def pyco_freq_list : List Nat := [125, 250, 500, 1000, 2000, 4000, 8000]

/-- One iteration of the slot loop of `plot_pychoacoustics`, source lines
327-343: skip when `freq_key` is absent from `ch_0` (a `None` is appended
and later filtered out, so the slot is simply omitted); otherwise convert
both ears with the RETSPL of the `ch_0` frequency, raising `KeyError` when
the RETSPL entry or the `ch_1` record is missing.  The result triple is
(plotted frequency from `freq_list`, left dB HL, right dB HL). -/
def pycoStep (d : PycoData) (i : Nat) : Except String (Option (Nat × Rat × Rat)) :=
  match d.ch0 i with
  | none => Except.ok none
  | some rec0 =>
    match RETSPL rec0.1 with
    | none => Except.error "KeyError: RETSPL"
    | some r =>
      match d.ch1 i with
      | none => Except.error "KeyError: ch_1"
      | some rec1 =>
          Except.ok (some (pyco_freq_list.getD i 0, rec0.2 - r, rec1.2 - r))

/-- The valid (frequency, left, right) series of `plot_pychoacoustics`
(`valid_freq`, `valid_dbhl_L`, `valid_dbhl_R` zipped), source lines 327-348. -/
def pycoSeries (d : PycoData) : Except String (List (Nat × Rat × Rat)) :=
  collectSlots (pycoStep d) [0, 1, 2, 3, 4, 5, 6]

/-- Ears as they appear in the turning-point text format. -/
inductive Ear
  | left
  | right
deriving DecidableEq

/-- Channel number of an ear, source line 185: Left is `ch_0`, Right `ch_1`. -/
def channelOf : Ear → Nat
  | Ear.left => 0
  | Ear.right => 1

/-- The `freq_hz_to_index` dictionary of `parse_pychoacoustics_txt`,
source lines 172-175. -/
def freq_hz_to_index (f : Nat) : Option Nat :=
  if f = 125 then some 0
  else if f = 250 then some 1
  else if f = 500 then some 2
  else if f = 1000 then some 3
  else if f = 2000 then some 4
  else if f = 4000 then some 5
  else if f = 8000 then some 6
  else none

/-- One delimiter-separated block of the turning-point text, abstracted to
the results of the three `re.search` field extractions of source lines
181-195: the matched ear, the matched integer frequency, and the matched
`turnpointMean` value, each `none` when the pattern does not occur. -/
structure Block where
  ear : Option Ear
  freqHz : Option Nat
  turnpointMean : Option Rat

/-- The per-block logic of `parse_pychoacoustics_txt`, source lines 181-204:
`continue` (yield nothing) as soon as one of the three fields is missing or
the frequency is not canonical; otherwise yield the single measurement
(channel, slot index, frequency, dB SPL). -/
def parseBlock (b : Block) : Option (Nat × Nat × Nat × Rat) :=
  match b.ear with
  | none => none
  | some e =>
    match b.freqHz with
    | none => none
    | some f =>
      match b.turnpointMean with
      | none => none
      | some v =>
        match freq_hz_to_index f with
        | none => none
        | some idx => some (channelOf e, idx, f, v)

/-- An empty pychoacoustics audiogram, source lines 167-170. -/
def emptyPyco : PycoData := ⟨fun _ => none, fun _ => none⟩

/-- Storing one parsed measurement into the audiogram dictionary,
source lines 201-204. -/
def insertMeas (d : PycoData) (m : Nat × Nat × Nat × Rat) : PycoData :=
  if m.1 = 0 then
    ⟨fun i => if i = m.2.1 then some (m.2.2.1, m.2.2.2) else d.ch0 i, d.ch1⟩
  else
    ⟨d.ch0, fun i => if i = m.2.1 then some (m.2.2.1, m.2.2.2) else d.ch1 i⟩

/-- The whole block loop of `parse_pychoacoustics_txt`, source lines
177-206, over the abstracted block list. -/
def parse_pychoacoustics (bs : List Block) : PycoData :=
  bs.foldl
    (fun d b =>
      match parseBlock b with
      | none => d
      | some m => insertMeas d m) emptyPyco

/-- The delimiter string `parse_pychoacoustics_txt` splits on, copied
verbatim from source line 165. -/
def pychoDelimiter : String :=
  "*******************************************************"

/-- Python semantics of `content.split(sep)` for a non-empty separator,
over character lists: scan left to right, cut at every non-overlapping
occurrence of the separator, keeping empty pieces.  `fuel` bounds the
recursion; any fuel of at least the content length is exact. -/
def pySplit (sep : List Char) : Nat → List Char → List Char → List (List Char)
  | _, acc, [] => [acc.reverse]
  | 0, acc, rest => [acc.reverse ++ rest]
  | fuel + 1, acc, c :: cs =>
    if sep.isPrefixOf (c :: cs) then
      acc.reverse :: pySplit sep fuel [] ((c :: cs).drop sep.length)
    else pySplit sep fuel (c :: acc) cs

/-- The block split of source line 165: `content.split(delimiter)`. -/
def splitBlocks (content : List Char) : List (List Char) :=
  pySplit pychoDelimiter.data (content.length + 1) [] content

/-- The calibration loading step of `load_elbicare`, source lines 100-118,
composed with `load_json` (lines 154-158): when the calibration file does
not exist the operation fails with a file-not-found report; otherwise the
parsed document is returned as-is, with no key validation of any kind. -/
def load_calibration (filePresent : Bool) (doc : CalibData) :
    Except String CalibData :=
  if filePresent then Except.ok doc
  else Except.error "Calibration file not found"

/-- The calibration-band key of elbicare slot `idx` (second component of
the `elbi_freq_map` entry). -/
def elbiBandKey (idx : Nat) : String :=
  ((elbi_freq_map idx).map (fun t => t.2.1)).getD ""

/-- A two-entry calibration band table used as concrete test data. -/
def calibC1 : String → Option (List Rat) :=
  fun s => if s = "250Hz" then some [3, 7] else none

/-- An elbicare document with slots 1-5 present on both channels and
slot 0 (250 Hz) absent, all amplitude codes 0. -/
def elbiC2 : ElbiData :=
  ⟨fun i => if i = 0 then none else if i < 6 then some 0 else none,
   fun i => if i = 0 then none else if i < 6 then some 0 else none⟩

/-- A calibration document whose 8000 Hz band converts code 0 to 40 dBA
and whose other bands convert code 0 to 0 dBA. -/
def calibC2 : CalibData :=
  ⟨none, none, none, none,
   fun s =>
     if s = "500Hz" then some [0]
     else if s = "1000Hz" then some [0]
     else if s = "2000Hz" then some [0]
     else if s = "4000Hz" then some [0]
     else if s = "8000Hz" then some [40]
     else none⟩

/-- The series `plot_elbicare` computes from `elbiC2` and `calibC2`. -/
def outC2 : List (Nat × Rat × Rat) :=
  [(500, 0, 0), (1000, 0, 0), (2000, 0, 0), (4000, 0, 0), (8000, 40, 40)]

/-- An elbicare document with all six slots present on both channels,
all amplitude codes 0. -/
def fullElbi : ElbiData :=
  ⟨fun i => if i < 6 then some 0 else none, fun i => if i < 6 then some 0 else none⟩

/-- A calibration document converting every code of every band to 0 dBA. -/
def fullCalib : CalibData := ⟨none, none, none, none, fun _ => some [0]⟩

/-- The series `plot_elbicare` computes from `fullElbi` and `fullCalib`. -/
def fullOut : List (Nat × Rat × Rat) :=
  [(250, 0, 0), (500, 0, 0), (1000, 0, 0), (2000, 0, 0), (4000, 0, 0), (8000, 0, 0)]

/-- A pychoacoustics channel with slots 1-6 (250-8000 Hz) present and
slot 0 (125 Hz) absent; the dB-SPL values equal the RETSPL of their
frequency except at 8000 Hz, which lies 40 dB above it. -/
def pycoC2ch : Nat → Option (Nat × Rat)
  | 1 => some (250, 27.0)
  | 2 => some (500, 13.5)
  | 3 => some (1000, 7.5)
  | 4 => some (2000, 9.0)
  | 5 => some (4000, 12.0)
  | 6 => some (8000, 55.5)
  | _ => none

/-- A pychoacoustics document with `pycoC2ch` on both channels. -/
def pycoC2 : PycoData := ⟨pycoC2ch, pycoC2ch⟩

/-- The series `plot_pychoacoustics` computes from `pycoC2`. -/
def pycoOutC2 : List (Nat × Rat × Rat) :=
  [(250, 0, 0), (500, 0, 0), (1000, 0, 0), (2000, 0, 0), (4000, 0, 0), (8000, 40, 40)]

/-- A pychoacoustics channel with all seven slots present, each dB-SPL
value equal to the RETSPL of its frequency. -/
def fullPycoCh : Nat → Option (Nat × Rat)
  | 0 => some (125, 45.0)
  | 1 => some (250, 27.0)
  | 2 => some (500, 13.5)
  | 3 => some (1000, 7.5)
  | 4 => some (2000, 9.0)
  | 5 => some (4000, 12.0)
  | 6 => some (8000, 15.5)
  | _ => none

/-- A pychoacoustics document with `fullPycoCh` on both channels. -/
def fullPyco : PycoData := ⟨fullPycoCh, fullPycoCh⟩

/-- The series `plot_pychoacoustics` computes from `fullPyco`. -/
def fullPycoOut : List (Nat × Rat × Rat) :=
  [(125, 0, 0), (250, 0, 0), (500, 0, 0), (1000, 0, 0), (2000, 0, 0),
   (4000, 0, 0), (8000, 0, 0)]

/-- An elbicare document whose slot 0 is present in channel 0 only. -/
def elbiC7 : ElbiData :=
  ⟨fun i => if i = 0 then some 0 else none, fun _ => none⟩

/-- A calibration document with only the 250 Hz band populated. -/
def calibC7 : CalibData :=
  ⟨none, none, none, none, fun s => if s = "250Hz" then some [10] else none⟩

/-- An elbicare document with no slots at all. -/
def emptyElbi : ElbiData := ⟨fun _ => none, fun _ => none⟩

/-- A calibration document with every field and band missing. -/
def emptyCalib : CalibData := ⟨none, none, none, none, fun _ => none⟩

/-- A well-formed turning-point block: left ear, 1000 Hz, 35.0 dB SPL. -/
def blockEx : Block := ⟨some Ear.left, some 1000, some 35⟩

/-! Helper lemmas about the slot-collecting loop and the step bodies. -/

theorem collectSlots_ok_forall {α : Type} {f : Nat → Except String (Option α)} :
    ∀ {is : List Nat} {out : List α}, collectSlots f is = Except.ok out →
      ∀ i ∈ is, ∃ r, f i = Except.ok r := by
  intro is
  induction is with
  | nil => intro out _ i hi; simp at hi
  | cons j js ih =>
      intro out h i hi
      cases hf : f j with
      | error e => simp only [collectSlots, hf] at h; exact absurd h (by simp)
      | ok o =>
          rcases List.mem_cons.mp hi with rfl | hi
          · exact ⟨o, hf⟩
          · cases o with
            | none =>
                simp only [collectSlots, hf] at h
                exact ih h i hi
            | some a =>
                simp only [collectSlots, hf] at h
                cases hrec : collectSlots f js with
                | error e => rw [hrec] at h; simp [Except.map] at h
                | ok l => exact ih hrec i hi

theorem mem_collectSlots {α : Type} {f : Nat → Except String (Option α)} :
    ∀ {is : List Nat} {out : List α}, collectSlots f is = Except.ok out →
      ∀ a : α, (a ∈ out ↔ ∃ i ∈ is, f i = Except.ok (some a)) := by
  intro is
  induction is with
  | nil =>
      intro out h a
      simp only [collectSlots] at h
      injection h with h
      subst h
      simp
  | cons j js ih =>
      intro out h a
      cases hf : f j with
      | error e => simp only [collectSlots, hf] at h; exact absurd h (by simp)
      | ok o =>
          cases o with
          | none =>
              simp only [collectSlots, hf] at h
              rw [ih h a]
              constructor
              · rintro ⟨i, hi, hfi⟩; exact ⟨i, List.mem_cons_of_mem _ hi, hfi⟩
              · rintro ⟨i, hi, hfi⟩
                rcases List.mem_cons.mp hi with rfl | hi
                · rw [hf] at hfi; simp at hfi
                · exact ⟨i, hi, hfi⟩
          | some b =>
              simp only [collectSlots, hf] at h
              cases hrec : collectSlots f js with
              | error e => rw [hrec] at h; simp [Except.map] at h
              | ok l =>
                  rw [hrec] at h
                  simp only [Except.map] at h
                  injection h with h
                  subst h
                  rw [List.mem_cons, ih hrec a]
                  constructor
                  · rintro (rfl | ⟨i, hi, hfi⟩)
                    · exact ⟨j, List.mem_cons_self _ _, hf⟩
                    · exact ⟨i, List.mem_cons_of_mem _ hi, hfi⟩
                  · rintro ⟨i, hi, hfi⟩
                    rcases List.mem_cons.mp hi with rfl | hi
                    · rw [hf] at hfi
                      injection hfi with hfi
                      injection hfi with hfi
                      exact Or.inl hfi.symm
                    · exact Or.inr ⟨i, hi, hfi⟩

theorem mem_range6 {i : Nat} : i ∈ [0, 1, 2, 3, 4, 5] ↔ i < 6 := by
  simp only [List.mem_cons, List.not_mem_nil, or_false]
  omega

theorem mem_range7 {i : Nat} : i ∈ [0, 1, 2, 3, 4, 5, 6] ↔ i < 7 := by
  simp only [List.mem_cons, List.not_mem_nil, or_false]
  omega

theorem elbi_freq_map_isSome {idx : Nat} (h : idx < 6) :
    (elbi_freq_map idx).isSome := by
  interval_cases idx <;> decide

theorem elbi_freq_map_plotFreq : ∀ (idx : Nat) (t : Rat × String × Nat),
    elbi_freq_map idx = some t → idx < 6 ∧ t.2.2 = elbiFreqAt idx
  | 0, t, h => by injection h with h; subst h; exact ⟨by omega, rfl⟩
  | 1, t, h => by injection h with h; subst h; exact ⟨by omega, rfl⟩
  | 2, t, h => by injection h with h; subst h; exact ⟨by omega, rfl⟩
  | 3, t, h => by injection h with h; subst h; exact ⟨by omega, rfl⟩
  | 4, t, h => by injection h with h; subst h; exact ⟨by omega, rfl⟩
  | 5, t, h => by injection h with h; subst h; exact ⟨by omega, rfl⟩
  | n + 6, t, h => by simp [elbi_freq_map] at h

theorem elbiFreqAt_injOn {i j : Nat} (hi : i < 6) (hj : j < 6)
    (h : elbiFreqAt i = elbiFreqAt j) : i = j := by
  interval_cases i <;> interval_cases j <;> revert h <;> decide

theorem pycoFreqAt_injOn {i j : Nat} (hi : i < 7) (hj : j < 7)
    (h : pyco_freq_list.getD i 0 = pyco_freq_list.getD j 0) : i = j := by
  interval_cases i <;> interval_cases j <;> revert h <;> decide

theorem elbiStep_ch0_none {elbi : ElbiData} {calib : CalibData} {idx : Nat}
    (h : elbi.ch0 idx = none) : elbiStep elbi calib idx = Except.ok none := by
  simp [elbiStep, h]

theorem elbiStep_ok_some {elbi : ElbiData} {calib : CalibData} {idx : Nat}
    {t : Nat × Rat × Rat} (h : elbiStep elbi calib idx = Except.ok (some t)) :
    idx < 6 ∧ (elbi.ch0 idx).isSome ∧ t.1 = elbiFreqAt idx := by
  unfold elbiStep at h
  cases hc : elbi.ch0 idx with
  | none => simp [hc] at h
  | some amplL =>
      simp only [hc] at h
      cases hm : elbi_freq_map idx with
      | none => simp [hm] at h
      | some tm =>
          simp only [hm] at h
          have hfq := elbi_freq_map_plotFreq idx tm hm
          cases hA : amplitudeToDBA amplL tm.2.1 calib.bands with
          | error e => simp [hA] at h
          | ok dbL =>
              simp only [hA] at h
              cases h1 : elbi.ch1 idx with
              | none => simp [h1] at h
              | some amplR =>
                  simp only [h1] at h
                  cases hB : amplitudeToDBA amplR tm.2.1 calib.bands with
                  | error e => simp [hB] at h
                  | ok dbR =>
                      simp only [hB] at h
                      injection h with h
                      injection h with h
                      subst h
                      exact ⟨hfq.1, rfl, hfq.2⟩

theorem elbiStep_ch0_some {elbi : ElbiData} {calib : CalibData} {idx : Nat}
    {a : Int} {r : Option (Nat × Rat × Rat)} (hlt : idx < 6)
    (hc : elbi.ch0 idx = some a) (h : elbiStep elbi calib idx = Except.ok r) :
    ∃ t, r = some t ∧ t.1 = elbiFreqAt idx := by
  unfold elbiStep at h
  rw [hc] at h
  cases hm : elbi_freq_map idx with
  | none =>
      have := elbi_freq_map_isSome hlt
      rw [hm] at this
      simp at this
  | some tm =>
      simp only [hm] at h
      have hfq := elbi_freq_map_plotFreq idx tm hm
      cases hA : amplitudeToDBA a tm.2.1 calib.bands with
      | error e => simp [hA] at h
      | ok dbL =>
          simp only [hA] at h
          cases h1 : elbi.ch1 idx with
          | none => simp [h1] at h
          | some amplR =>
              simp only [h1] at h
              cases hB : amplitudeToDBA amplR tm.2.1 calib.bands with
              | error e => simp [hB] at h
              | ok dbR =>
                  simp only [hB] at h
                  injection h with h
                  exact ⟨(tm.2.2, dbL, dbR), h.symm, hfq.2⟩

theorem pycoStep_ch0_none {d : PycoData} {i : Nat} (h : d.ch0 i = none) :
    pycoStep d i = Except.ok none := by
  simp [pycoStep, h]

theorem pycoStep_ok_some {d : PycoData} {i : Nat} {t : Nat × Rat × Rat}
    (h : pycoStep d i = Except.ok (some t)) :
    (d.ch0 i).isSome ∧ t.1 = pyco_freq_list.getD i 0 := by
  unfold pycoStep at h
  cases hc : d.ch0 i with
  | none => simp [hc] at h
  | some rec0 =>
      simp only [hc] at h
      cases hr : RETSPL rec0.1 with
      | none => simp [hr] at h
      | some r =>
          simp only [hr] at h
          cases h1 : d.ch1 i with
          | none => simp [h1] at h
          | some rec1 =>
              simp only [h1] at h
              injection h with h
              injection h with h
              subst h
              exact ⟨rfl, rfl⟩

theorem pycoStep_ch0_some {d : PycoData} {i : Nat} {p : Nat × Rat}
    {r : Option (Nat × Rat × Rat)} (hc : d.ch0 i = some p)
    (h : pycoStep d i = Except.ok r) :
    ∃ t, r = some t ∧ t.1 = pyco_freq_list.getD i 0 := by
  unfold pycoStep at h
  rw [hc] at h
  cases hr : RETSPL p.1 with
  | none => simp [hr] at h
  | some rv =>
      simp only [hr] at h
      cases h1 : d.ch1 i with
      | none => simp [h1] at h
      | some rec1 =>
          simp only [h1] at h
          injection h with h
          exact ⟨(pyco_freq_list.getD i 0, p.2 - rv, rec1.2 - rv), h.symm, rfl⟩

theorem elbi_mem_step {elbi : ElbiData} {calib : CalibData}
    {out : List (Nat × Rat × Rat)}
    (h : collectSlots (elbiStep elbi calib) [0, 1, 2, 3, 4, 5] = Except.ok out)
    {g : Nat} (hmem : g ∈ freqsOf out) :
    ∃ i t, i < 6 ∧ elbiFreqAt i = g ∧
      elbiStep elbi calib i = Except.ok (some t) ∧ t.1 = g := by
  simp only [freqsOf] at hmem
  obtain ⟨t, ht, hft⟩ := List.mem_map.mp hmem
  obtain ⟨i, hi, hfi⟩ := (mem_collectSlots h t).mp ht
  obtain ⟨hi6, -, hfreq⟩ := elbiStep_ok_some hfi
  exact ⟨i, t, hi6, hfreq.symm.trans hft, hfi, hft⟩

theorem pyco_mem_step {d : PycoData} {out : List (Nat × Rat × Rat)}
    (h : collectSlots (pycoStep d) [0, 1, 2, 3, 4, 5, 6] = Except.ok out)
    {g : Nat} (hmem : g ∈ freqsOf out) :
    ∃ i t, i < 7 ∧ pyco_freq_list.getD i 0 = g ∧
      pycoStep d i = Except.ok (some t) ∧ t.1 = g := by
  simp only [freqsOf] at hmem
  obtain ⟨t, ht, hft⟩ := List.mem_map.mp hmem
  obtain ⟨i, hi, hfi⟩ := (mem_collectSlots h t).mp ht
  obtain ⟨-, hfreq⟩ := pycoStep_ok_some hfi
  exact ⟨i, t, mem_range7.mp hi, hfreq.symm.trans hft, hfi, hft⟩

theorem pyco_not_mem {d : PycoData} {out : List (Nat × Rat × Rat)}
    (h : collectSlots (pycoStep d) [0, 1, 2, 3, 4, 5, 6] = Except.ok out)
    {j g : Nat} (hj : j < 7) (hg : pyco_freq_list.getD j 0 = g)
    (hn : pycoStep d j = Except.ok none) : g ∉ freqsOf out := by
  subst hg
  intro hm
  obtain ⟨i, t, hi, hf, hs, -⟩ := pyco_mem_step h hm
  have e : i = j := pycoFreqAt_injOn hi hj hf
  subst e
  rw [hn] at hs
  exact absurd hs (by simp)

theorem pyco_mem_of_some {d : PycoData} {out : List (Nat × Rat × Rat)}
    (h : collectSlots (pycoStep d) [0, 1, 2, 3, 4, 5, 6] = Except.ok out)
    {j g : Nat} {t : Nat × Rat × Rat} (hj : j ∈ [0, 1, 2, 3, 4, 5, 6])
    (hg : pyco_freq_list.getD j 0 = g)
    (hs : pycoStep d j = Except.ok (some t)) : g ∈ freqsOf out := by
  subst hg
  simp only [freqsOf]
  exact List.mem_map.mpr
    ⟨t, (mem_collectSlots h t).mpr ⟨j, hj, hs⟩, (pycoStep_ok_some hs).2⟩

/-! Claim theorems. -/

/-- Claim C1, counterexample: the 0.0 fallback does not cover negative
codes.  With band array [3, 7], code -1 returns 7 (Python negative
indexing), not 0.0, and code -3 raises IndexError. -/
theorem C1_counterexample :
    amplitudeToDBA (-1) "250Hz" calibC1 = Except.ok 7 ∧ (7 : Rat) ≠ 0 ∧
    amplitudeToDBA (-3) "250Hz" calibC1 =
      Except.error "IndexError: list index out of range" := by
  refine ⟨rfl, by norm_num, rfl⟩

/-- Claim C1 as amended: for a band array present in the table, an
in-range code 0 ≤ code < len returns exactly the table value at that
index, a code ≥ len returns 0 without error, while a negative code is
indexed from the end of the array (len + code) when -len ≤ code < 0 and
raises IndexError when code < -len. -/
theorem C1_amended :
    ∀ (calibTable : String → Option (List Rat)) (band : String)
      (xs : List Rat) (code : Int),
      calibTable band = some xs →
      ((0 ≤ code → code < (xs.length : Int) →
          amplitudeToDBA code band calibTable = Except.ok (xs.getD code.toNat 0)) ∧
        ((xs.length : Int) ≤ code →
          amplitudeToDBA code band calibTable = Except.ok 0) ∧
        (-(xs.length : Int) ≤ code → code < 0 →
          amplitudeToDBA code band calibTable =
            Except.ok (xs.getD ((xs.length : Int) + code).toNat 0)) ∧
        (code < -(xs.length : Int) →
          amplitudeToDBA code band calibTable =
            Except.error "IndexError: list index out of range")) := by
  intro tbl band xs code htbl
  refine ⟨?_, ?_, ?_, ?_⟩
  · intro h0 hlt
    have hneg : ¬ code < 0 := by omega
    simp [amplitudeToDBA, htbl, pyIndex, hlt, hneg, h0]
  · intro hge
    have hlt : ¬ code < (xs.length : Int) := by omega
    simp [amplitudeToDBA, htbl, hlt]
  · intro hge hneg
    have hlt : code < (xs.length : Int) := by omega
    have h2 : 0 ≤ (xs.length : Int) + code := by omega
    have h3 : (xs.length : Int) + code < (xs.length : Int) := by omega
    simp [amplitudeToDBA, htbl, pyIndex, hlt, hneg, h2, h3]
  · intro hlt2
    have hlt : code < (xs.length : Int) := by omega
    have hneg : code < 0 := by omega
    have h2 : ¬ (0 ≤ (xs.length : Int) + code) := by omega
    simp [amplitudeToDBA, htbl, pyIndex, hlt, hneg, h2]

/-- Witness for C1_amended at band [3, 7]: code 1 hits the table, code 5
falls back to 0. -/
theorem C1_witness :
    amplitudeToDBA 1 "250Hz" calibC1 = Except.ok (([3, 7] : List Rat).getD 1 0) ∧
    amplitudeToDBA 5 "250Hz" calibC1 = Except.ok 0 :=
  ⟨(C1_amended calibC1 "250Hz" [3, 7] 1 rfl).1 (by decide) (by decide),
   (C1_amended calibC1 "250Hz" [3, 7] 5 rfl).2.1 (by decide)⟩

/-- Claim C2, counterexample for both PTA instances.
Elbicare: with 250 Hz absent and 8000 Hz present, the positional indices
1-4 of line 252 shift off 500-4000 Hz; the series from `elbiC2` and
`calibC2` contains all four target frequencies, yet the computed PTA is
10 while the mean of the values at 500/1000/2000/4000 Hz is 0.
Pychoacoustics: with 125 Hz absent and 250-8000 Hz present, the six-point
series trips the positional branch of line 352 and indices 2-5 shift
likewise; the series from `pycoC2` contains all four target frequencies,
yet the computed PTA is 10 while the four-frequency mean is 0. -/
theorem C2_counterexample :
    (elbiSeries elbiC2 calibC2 = Except.ok outC2 ∧
      500 ∈ freqsOf outC2 ∧ 1000 ∈ freqsOf outC2 ∧
      2000 ∈ freqsOf outC2 ∧ 4000 ∈ freqsOf outC2 ∧
      computePTA_elbi (dbLeft outC2) = 10 ∧
      specPTA_fourFreqMean (leftSeries outC2) = 0) ∧
    (pycoSeries pycoC2 = Except.ok pycoOutC2 ∧
      500 ∈ freqsOf pycoOutC2 ∧ 1000 ∈ freqsOf pycoOutC2 ∧
      2000 ∈ freqsOf pycoOutC2 ∧ 4000 ∈ freqsOf pycoOutC2 ∧
      computePTA_pyco (dbLeft pycoOutC2) = 10 ∧
      specPTA_fourFreqMean (leftSeries pycoOutC2) = 0) ∧
    (10 : Rat) ≠ 0 := by
  refine ⟨⟨rfl, by decide, by decide, by decide, by decide,
      by norm_num [computePTA_elbi, dbLeft, outC2],
      by norm_num [specPTA_fourFreqMean, specPTA_fourFreqMean.valueAt, leftSeries,
        outC2]⟩,
    ⟨?_, by decide, by decide, by decide, by decide,
      by norm_num [computePTA_pyco, dbLeft, pycoOutC2],
      by norm_num [specPTA_fourFreqMean, specPTA_fourFreqMean.valueAt, leftSeries,
        pycoOutC2]⟩,
    by norm_num⟩
  norm_num [pycoSeries, collectSlots, pycoStep, pycoC2, pycoC2ch, RETSPL,
    pyco_freq_list, pycoOutC2, Except.map]

/-- PTA alignment on the elbicare path: when the series contains the four
target frequencies and additionally 250 Hz is present or 8000 Hz absent,
positions 1-4 of the value list are exactly 500-4000 Hz and the PTA is
their mean. -/
theorem elbiPTA_aligned :
    ∀ (elbi : ElbiData) (calib : CalibData) (out : List (Nat × Rat × Rat)),
      elbiSeries elbi calib = Except.ok out →
      500 ∈ freqsOf out → 1000 ∈ freqsOf out →
      2000 ∈ freqsOf out → 4000 ∈ freqsOf out →
      (250 ∈ freqsOf out ∨ 8000 ∉ freqsOf out) →
      computePTA_elbi (dbLeft out) = specPTA_fourFreqMean (leftSeries out) := by
  intro elbi calib out h hm500 hm1000 hm2000 hm4000 hguard
  unfold elbiSeries at h
  obtain ⟨i1, t1, hi1, hf1, hs1, hft1⟩ := elbi_mem_step h hm500
  have e1 : i1 = 1 := by revert hf1; interval_cases i1 <;> decide
  subst e1
  obtain ⟨i2, t2, hi2, hf2, hs2, hft2⟩ := elbi_mem_step h hm1000
  have e2 : i2 = 2 := by revert hf2; interval_cases i2 <;> decide
  subst e2
  obtain ⟨i3, t3, hi3, hf3, hs3, hft3⟩ := elbi_mem_step h hm2000
  have e3 : i3 = 3 := by revert hf3; interval_cases i3 <;> decide
  subst e3
  obtain ⟨i4, t4, hi4, hf4, hs4, hft4⟩ := elbi_mem_step h hm4000
  have e4 : i4 = 4 := by revert hf4; interval_cases i4 <;> decide
  subst e4
  obtain ⟨f1, a1, b1⟩ := t1
  obtain ⟨f2, a2, b2⟩ := t2
  obtain ⟨f3, a3, b3⟩ := t3
  obtain ⟨f4, a4, b4⟩ := t4
  dsimp only at hft1 hft2 hft3 hft4
  subst hft1; subst hft2; subst hft3; subst hft4
  obtain ⟨r0, hr0⟩ := collectSlots_ok_forall h 0 (by decide)
  obtain ⟨r5, hr5⟩ := collectSlots_ok_forall h 5 (by decide)
  cases r0 with
  | some t0 =>
      obtain ⟨f0, a0, b0⟩ := t0
      have hf0 : f0 = 250 := by
        have := (elbiStep_ok_some hr0).2.2
        simpa using this
      subst hf0
      cases r5 with
      | some t5 =>
          obtain ⟨f5, a5, b5⟩ := t5
          have hf5 : f5 = 8000 := by
            have := (elbiStep_ok_some hr5).2.2
            simpa using this
          subst hf5
          simp only [collectSlots, hr0, hs1, hs2, hs3, hs4, hr5, Except.map] at h
          injection h with h
          subst h
          simp [computePTA_elbi, dbLeft, leftSeries, specPTA_fourFreqMean,
            specPTA_fourFreqMean.valueAt]
      | none =>
          simp only [collectSlots, hr0, hs1, hs2, hs3, hs4, hr5, Except.map] at h
          injection h with h
          subst h
          simp [computePTA_elbi, dbLeft, leftSeries, specPTA_fourFreqMean,
            specPTA_fourFreqMean.valueAt]
  | none =>
      have h250 : 250 ∉ freqsOf out := by
        intro hm
        obtain ⟨i0, t0, hi0, hf0, hs0, -⟩ := elbi_mem_step h hm
        have e0 : i0 = 0 := by revert hf0; interval_cases i0 <;> decide
        subst e0
        rw [hr0] at hs0
        exact absurd hs0 (by simp)
      have h8000 : 8000 ∉ freqsOf out := hguard.resolve_left h250
      cases r5 with
      | some t5 =>
          exfalso
          apply h8000
          have ht5 : t5 ∈ out := (mem_collectSlots h t5).mpr ⟨5, by decide, hr5⟩
          have hfr := (elbiStep_ok_some hr5).2.2
          simp only [freqsOf]
          exact List.mem_map.mpr ⟨t5, ht5, by simpa using hfr⟩
      | none =>
          simp only [collectSlots, hr0, hs1, hs2, hs3, hs4, hr5, Except.map] at h
          injection h with h
          subst h
          simp only [computePTA_elbi, dbLeft, leftSeries, specPTA_fourFreqMean,
            specPTA_fourFreqMean.valueAt, List.map_cons, List.map_nil,
            List.length_cons, List.length_nil]
          norm_num
          ring

/-- PTA alignment on the pychoacoustics path: when the series contains the
four target frequencies and additionally contains 125 Hz exactly when it
contains 250 Hz and contains 125 Hz if it contains 8000 Hz, positions 2-5
of the value list are exactly 500-4000 Hz (or the fallback averages
exactly the four targets) and the PTA is their mean. -/
theorem pycoPTA_aligned :
    ∀ (d : PycoData) (out : List (Nat × Rat × Rat)),
      pycoSeries d = Except.ok out →
      500 ∈ freqsOf out → 1000 ∈ freqsOf out →
      2000 ∈ freqsOf out → 4000 ∈ freqsOf out →
      ((125 ∈ freqsOf out ↔ 250 ∈ freqsOf out) ∧
        (8000 ∈ freqsOf out → 125 ∈ freqsOf out)) →
      computePTA_pyco (dbLeft out) = specPTA_fourFreqMean (leftSeries out) := by
  intro d out h hm500 hm1000 hm2000 hm4000 hguard
  unfold pycoSeries at h
  obtain ⟨j2, t2, hj2, hf2, hs2, hft2⟩ := pyco_mem_step h hm500
  have e2 : j2 = 2 := by revert hf2; interval_cases j2 <;> decide
  subst e2
  obtain ⟨j3, t3, hj3, hf3, hs3, hft3⟩ := pyco_mem_step h hm1000
  have e3 : j3 = 3 := by revert hf3; interval_cases j3 <;> decide
  subst e3
  obtain ⟨j4, t4, hj4, hf4, hs4, hft4⟩ := pyco_mem_step h hm2000
  have e4 : j4 = 4 := by revert hf4; interval_cases j4 <;> decide
  subst e4
  obtain ⟨j5, t5, hj5, hf5, hs5, hft5⟩ := pyco_mem_step h hm4000
  have e5 : j5 = 5 := by revert hf5; interval_cases j5 <;> decide
  subst e5
  obtain ⟨f2, a2, b2⟩ := t2
  obtain ⟨f3, a3, b3⟩ := t3
  obtain ⟨f4, a4, b4⟩ := t4
  obtain ⟨f5, a5, b5⟩ := t5
  dsimp only at hft2 hft3 hft4 hft5
  subst hft2; subst hft3; subst hft4; subst hft5
  obtain ⟨r0, hr0⟩ := collectSlots_ok_forall h 0 (by decide)
  obtain ⟨r1, hr1⟩ := collectSlots_ok_forall h 1 (by decide)
  obtain ⟨r6, hr6⟩ := collectSlots_ok_forall h 6 (by decide)
  cases r0 with
  | some t0 =>
      have hm125 : (125 : Nat) ∈ freqsOf out :=
        pyco_mem_of_some h (by decide) (by decide) hr0
      cases r1 with
      | none =>
          exact absurd (hguard.1.mp hm125)
            (pyco_not_mem h (by omega) (by decide) hr1)
      | some t1 =>
          obtain ⟨f0, a0, b0⟩ := t0
          have hf0 : f0 = 125 := by
            have h' := (pycoStep_ok_some hr0).2
            simpa using h'
          subst hf0
          obtain ⟨f1, a1, b1⟩ := t1
          have hf1 : f1 = 250 := by
            have h' := (pycoStep_ok_some hr1).2
            simpa using h'
          subst hf1
          cases r6 with
          | some t6 =>
              obtain ⟨f6, a6, b6⟩ := t6
              have hf6 : f6 = 8000 := by
                have h' := (pycoStep_ok_some hr6).2
                simpa using h'
              subst hf6
              simp only [collectSlots, hr0, hr1, hs2, hs3, hs4, hs5, hr6,
                Except.map] at h
              injection h with h
              subst h
              simp [computePTA_pyco, dbLeft, leftSeries, specPTA_fourFreqMean,
                specPTA_fourFreqMean.valueAt]
          | none =>
              simp only [collectSlots, hr0, hr1, hs2, hs3, hs4, hs5, hr6,
                Except.map] at h
              injection h with h
              subst h
              simp [computePTA_pyco, dbLeft, leftSeries, specPTA_fourFreqMean,
                specPTA_fourFreqMean.valueAt]
  | none =>
      have hn125 : (125 : Nat) ∉ freqsOf out :=
        pyco_not_mem h (by omega) (by decide) hr0
      cases r1 with
      | some t1 =>
          have hm250 : (250 : Nat) ∈ freqsOf out :=
            pyco_mem_of_some h (by decide) (by decide) hr1
          exact absurd (hguard.1.mpr hm250) hn125
      | none =>
          cases r6 with
          | some t6 =>
              have hm8000 : (8000 : Nat) ∈ freqsOf out :=
                pyco_mem_of_some h (by decide) (by decide) hr6
              exact absurd (hguard.2 hm8000) hn125
          | none =>
              simp only [collectSlots, hr0, hr1, hs2, hs3, hs4, hs5, hr6,
                Except.map] at h
              injection h with h
              subst h
              simp only [computePTA_pyco, dbLeft, leftSeries,
                specPTA_fourFreqMean, specPTA_fourFreqMean.valueAt,
                List.map_cons, List.map_nil, List.length_cons, List.length_nil]
              norm_num
              ring

/-- Claim C2 as amended: in both paths the PTA equals the arithmetic mean
of the values at 500/1000/2000/4000 Hz, independent of the other values,
provided the positional indices align: for the elbicare path the series
must additionally contain 250 Hz or not contain 8000 Hz; for the
pychoacoustics path the series must contain 125 Hz exactly when it
contains 250 Hz, and must contain 125 Hz whenever it contains 8000 Hz. -/
theorem C2_amended :
    (∀ (elbi : ElbiData) (calib : CalibData) (out : List (Nat × Rat × Rat)),
        elbiSeries elbi calib = Except.ok out →
        500 ∈ freqsOf out → 1000 ∈ freqsOf out →
        2000 ∈ freqsOf out → 4000 ∈ freqsOf out →
        (250 ∈ freqsOf out ∨ 8000 ∉ freqsOf out) →
        computePTA_elbi (dbLeft out) = specPTA_fourFreqMean (leftSeries out)) ∧
    (∀ (d : PycoData) (out : List (Nat × Rat × Rat)),
        pycoSeries d = Except.ok out →
        500 ∈ freqsOf out → 1000 ∈ freqsOf out →
        2000 ∈ freqsOf out → 4000 ∈ freqsOf out →
        ((125 ∈ freqsOf out ↔ 250 ∈ freqsOf out) ∧
          (8000 ∈ freqsOf out → 125 ∈ freqsOf out)) →
        computePTA_pyco (dbLeft out) = specPTA_fourFreqMean (leftSeries out)) :=
  ⟨elbiPTA_aligned, pycoPTA_aligned⟩

/-- Witness for C2_amended on the full six-slot elbicare document
`fullElbi` with the all-zero calibration `fullCalib`, and the full
seven-slot pychoacoustics document `fullPyco`. -/
theorem C2_witness :
    computePTA_elbi (dbLeft fullOut) = specPTA_fourFreqMean (leftSeries fullOut) ∧
    computePTA_pyco (dbLeft fullPycoOut) =
      specPTA_fourFreqMean (leftSeries fullPycoOut) :=
  ⟨C2_amended.1 fullElbi fullCalib fullOut rfl (by decide) (by decide) (by decide)
      (by decide) (Or.inl (by decide)),
   C2_amended.2 fullPyco fullPycoOut
      (by norm_num [pycoSeries, collectSlots, pycoStep, fullPyco, fullPycoCh,
        RETSPL, pyco_freq_list, fullPycoOut, Except.map])
      (by decide) (by decide) (by decide) (by decide) (by decide)⟩

/-- Claim C3: for every dB-SPL value and every canonical frequency, the
SPL-to-HL conversion satisfies splToHL(dbSPL, f) + RETSPL[f] = dbSPL. -/
theorem C3_roundtrip :
    ∀ f ∈ canonicalFreqs, ∀ dbSPL : Rat,
      ∃ r h, RETSPL f = some r ∧ splToHL dbSPL f = some h ∧ h + r = dbSPL := by
  intro f hf dbSPL
  simp only [canonicalFreqs] at hf
  fin_cases hf <;> exact ⟨_, _, rfl, rfl, by ring⟩

/-- Witness for C3_roundtrip at f = 1000 Hz, dbSPL = 42. -/
theorem C3_witness :
    ∃ r h, RETSPL 1000 = some r ∧ splToHL 42 1000 = some h ∧ h + r = 42 :=
  C3_roundtrip 1000 (by decide) 42

/-- Claim C4: a block with all three fields matched and a canonical
frequency yields exactly one measurement, on channel 0 for the left ear
and channel 1 for the right ear, with the parsed frequency and value;
a block with any of the three fields unmatched yields no measurement
(and, being a total function, raises nothing). -/
theorem C4_parseBlock :
    (∀ (b : Block) (e : Ear) (f : Nat) (v : Rat),
        b.ear = some e → b.freqHz = some f → b.turnpointMean = some v →
        f ∈ canonicalFreqs →
        ∃ idx, freq_hz_to_index f = some idx ∧
          parseBlock b = some (channelOf e, idx, f, v)) ∧
    (∀ b : Block,
        b.ear = none ∨ b.freqHz = none ∨ b.turnpointMean = none →
        parseBlock b = none) ∧
    channelOf Ear.left = 0 ∧ channelOf Ear.right = 1 := by
  refine ⟨?_, ?_, rfl, rfl⟩
  · intro b e f v he hf hv hcanon
    simp only [canonicalFreqs] at hcanon
    fin_cases hcanon <;>
      exact ⟨_, rfl, by simp [parseBlock, he, hf, hv, freq_hz_to_index]⟩
  · intro b hb
    unfold parseBlock
    rcases hb with h | h | h
    · rw [h]
    · cases hbe : b.ear with
      | none => rfl
      | some e => rw [h]
    · cases hbe : b.ear with
      | none => rfl
      | some e =>
          cases hbf : b.freqHz with
          | none => rfl
          | some f => rw [h]

/-- Witness for C4_parseBlock on the block (Left, 1000 Hz, 35.0). -/
theorem C4_witness :
    ∃ idx, freq_hz_to_index 1000 = some idx ∧
      parseBlock blockEx = some (channelOf Ear.left, idx, 1000, 35) :=
  C4_parseBlock.1 blockEx Ear.left 1000 35 rfl rfl rfl (by decide)

/-- Claim C5, counterexample: the delimiter string of the split on source
line 165 has 55 asterisks, not 59, and a bare line of 55 asterisks is
already recognised as a delimiter. -/
theorem C5_counterexample :
    pychoDelimiter.length = 55 ∧
    pychoDelimiter ≠ String.mk (List.replicate 59 '*') ∧
    splitBlocks (List.replicate 55 '*') = [[], []] := by
  refine ⟨by decide, by decide, by decide⟩

/-- Claim C5 as amended: the parser splits its input on a delimiter
substring of exactly 55 asterisk characters; consequently a line of 59
asterisks is split into an empty block and a residue of 4 asterisks. -/
theorem C5_amended :
    pychoDelimiter = String.mk (List.replicate 55 '*') ∧
    splitBlocks (List.replicate 59 '*') = [[], List.replicate 4 '*'] :=
  ⟨by decide, by decide⟩

/-- Claim C6: the slot map sends slots 0-5 to 250, 500, 1000, 2000, 4000,
8000 Hz in order and injectively, slot 3 to 2000 Hz in particular, and no
series produced by the elbicare path ever contains 125 Hz. -/
theorem C6_freqMap :
    ((List.range 6).map (fun i => (elbi_freq_map i).map (fun t => t.2.2)) =
      [some 250, some 500, some 1000, some 2000, some 4000, some 8000]) ∧
    (∀ i j : Nat, i < 6 → j < 6 → elbiFreqAt i = elbiFreqAt j → i = j) ∧
    ((elbi_freq_map 3).map (fun t => t.2.2) = some 2000) ∧
    (∀ (elbi : ElbiData) (calib : CalibData) (out : List (Nat × Rat × Rat)),
        elbiSeries elbi calib = Except.ok out → 125 ∉ freqsOf out) := by
  refine ⟨by decide, fun i j hi hj h => elbiFreqAt_injOn hi hj h, by decide, ?_⟩
  intro elbi calib out h hmem
  unfold elbiSeries at h
  simp only [freqsOf] at hmem
  obtain ⟨t, ht, hft⟩ := List.mem_map.mp hmem
  obtain ⟨i, hi, hfi⟩ := (mem_collectSlots h t).mp ht
  obtain ⟨hi6, -, hfreq⟩ := elbiStep_ok_some hfi
  rw [hfreq] at hft
  revert hft
  interval_cases i <;> decide

/-- Witness for C6_freqMap: the empty elbicare document produces the empty
series, which does not contain 125 Hz. -/
theorem C6_witness : 125 ∉ freqsOf [] :=
  C6_freqMap.2.2.2 emptyElbi emptyCalib [] rfl

/-- Claim C7, counterexample: a slot present in channel 0 but absent from
channel 1 is not treated as not tested; the loop body raises KeyError
reading `ch_1`, so the whole plot fails. -/
theorem C7_counterexample :
    elbiSeries elbiC7 calibC7 = Except.error "KeyError: ch_1" := by
  rfl

/-- Claim C7 as amended: a slot absent from channel 0 is silently omitted
whatever channel 1 holds; but a slot present in channel 0 whose left
amplitude converts successfully and which is absent from channel 1 makes
the loop body raise KeyError on `ch_1`. -/
theorem C7_amended :
    (∀ (elbi : ElbiData) (calib : CalibData) (idx : Nat),
        elbi.ch0 idx = none → elbiStep elbi calib idx = Except.ok none) ∧
    (∀ (elbi : ElbiData) (calib : CalibData) (idx : Nat) (a : Int) (d : Rat),
        idx < 6 → elbi.ch0 idx = some a →
        amplitudeToDBA a (elbiBandKey idx) calib.bands = Except.ok d →
        elbi.ch1 idx = none →
        elbiStep elbi calib idx = Except.error "KeyError: ch_1") := by
  constructor
  · intro elbi calib idx h
    exact elbiStep_ch0_none h
  · intro elbi calib idx a d hlt hc hA h1
    interval_cases idx <;>
      · simp only [elbiBandKey, elbi_freq_map] at hA
        simp only [Option.map_some', Option.getD_some] at hA
        simp [elbiStep, hc, elbi_freq_map, hA, h1]

/-- Witness for C7_amended: an empty channel-0 slot is skipped, and the
concrete document `elbiC7` raises KeyError on `ch_1` at slot 0. -/
theorem C7_witness :
    elbiStep emptyElbi emptyCalib 0 = Except.ok none ∧
    elbiStep elbiC7 calibC7 0 = Except.error "KeyError: ch_1" :=
  ⟨C7_amended.1 emptyElbi emptyCalib 0 rfl,
   C7_amended.2 elbiC7 calibC7 0 0 10 (by omega) rfl rfl rfl⟩

/-- Claim C8, counterexample: a present calibration resource with every
required key missing is loaded successfully; no MalformedError is ever
raised at load time. -/
theorem C8_counterexample :
    load_calibration true emptyCalib = Except.ok emptyCalib ∧
    emptyCalib.audio_unit = none ∧ emptyCalib.headphone = none ∧
    emptyCalib.author = none ∧ emptyCalib.tanggal = none ∧
    emptyCalib.bands "250Hz" = none :=
  ⟨rfl, rfl, rfl, rfl, rfl, rfl⟩

/-- Claim C8 as amended: when the calibration resource is absent the load
fails with a file-not-found report; when it is present the parsed document
is returned with no key validation whatsoever, and a missing band key only
surfaces later, as a KeyError while plotting a slot that needs the band. -/
theorem C8_amended :
    (∀ doc : CalibData, load_calibration true doc = Except.ok doc) ∧
    (∀ doc : CalibData,
        load_calibration false doc = Except.error "Calibration file not found") ∧
    (∀ (elbi : ElbiData) (calib : CalibData) (a : Int),
        elbi.ch0 0 = some a → calib.bands "250Hz" = none →
        elbiSeries elbi calib = Except.error "KeyError: calibration band") := by
  refine ⟨fun doc => rfl, fun doc => rfl, ?_⟩
  intro elbi calib a hc hb
  unfold elbiSeries collectSlots
  simp [elbiStep, hc, elbi_freq_map, amplitudeToDBA, hb]

/-- Witness for C8_amended: `elbiC7` (slot 0 present) against the empty
calibration document fails with the band KeyError. -/
theorem C8_witness :
    elbiSeries elbiC7 emptyCalib = Except.error "KeyError: calibration band" :=
  C8_amended.2.2 elbiC7 emptyCalib 0 rfl rfl

/-- Claim C9: both inline PTA computations return 0 on the empty value
list; the division by the list length is guarded by the emptiness check. -/
theorem C9_emptyPTA : computePTA_elbi [] = 0 ∧ computePTA_pyco [] = 0 :=
  ⟨rfl, rfl⟩

/-- Claim C10: when the processing of either format completes without an
exception, a slot is included in the final series exactly when channel 0
has data at that slot; data present only in channel 1 at a slot is
silently omitted from both ears. -/
theorem C10_slotInclusion :
    (∀ (elbi : ElbiData) (calib : CalibData) (out : List (Nat × Rat × Rat)),
        elbiSeries elbi calib = Except.ok out →
        ∀ idx : Nat, idx < 6 →
          (elbiFreqAt idx ∈ freqsOf out ↔ (elbi.ch0 idx).isSome)) ∧
    (∀ (d : PycoData) (out : List (Nat × Rat × Rat)),
        pycoSeries d = Except.ok out →
        ∀ i : Nat, i < 7 →
          (pyco_freq_list.getD i 0 ∈ freqsOf out ↔ (d.ch0 i).isSome)) := by
  constructor
  · intro elbi calib out h idx hidx
    unfold elbiSeries at h
    constructor
    · intro hmem
      obtain ⟨i, t, hi6, hfg, hfi, -⟩ := elbi_mem_step h hmem
      have hsome := (elbiStep_ok_some hfi).2.1
      rwa [elbiFreqAt_injOn hi6 hidx hfg] at hsome
    · intro hsome
      obtain ⟨a, ha⟩ := Option.isSome_iff_exists.mp hsome
      obtain ⟨r, hr⟩ := collectSlots_ok_forall h idx (mem_range6.mpr hidx)
      obtain ⟨t, rfl, hfreq⟩ := elbiStep_ch0_some hidx ha hr
      simp only [freqsOf]
      exact List.mem_map.mpr
        ⟨t, (mem_collectSlots h t).mpr ⟨idx, mem_range6.mpr hidx, hr⟩, hfreq⟩
  · intro d out h j hj
    unfold pycoSeries at h
    constructor
    · intro hmem
      simp only [freqsOf] at hmem
      obtain ⟨t, ht, hft⟩ := List.mem_map.mp hmem
      obtain ⟨i, hi, hfi⟩ := (mem_collectSlots h t).mp ht
      obtain ⟨hsome, hfreq⟩ := pycoStep_ok_some hfi
      rw [hfreq] at hft
      rwa [pycoFreqAt_injOn (mem_range7.mp hi) hj hft] at hsome
    · intro hsome
      obtain ⟨p, hp⟩ := Option.isSome_iff_exists.mp hsome
      obtain ⟨r, hr⟩ := collectSlots_ok_forall h j (mem_range7.mpr hj)
      obtain ⟨t, rfl, hfreq⟩ := pycoStep_ch0_some hp hr
      simp only [freqsOf]
      exact List.mem_map.mpr
        ⟨t, (mem_collectSlots h t).mpr ⟨j, mem_range7.mpr hj, hr⟩, hfreq⟩

/-- Witness for C10_slotInclusion: on the empty documents of both formats,
each side of the equivalence is false at a concrete slot. -/
theorem C10_witness :
    (elbiFreqAt 1 ∈ freqsOf [] ↔ (emptyElbi.ch0 1).isSome) ∧
    (pyco_freq_list.getD 0 0 ∈ freqsOf [] ↔ (emptyPyco.ch0 0).isSome) :=
  ⟨C10_slotInclusion.1 emptyElbi emptyCalib [] rfl 1 (by omega),
   C10_slotInclusion.2 emptyPyco [] rfl 0 (by omega)⟩

end AudiogramPlotter
